import Mathlib

/-!
Verification of the Tasker phone-control command gateway
(`src/tasker_mcp/server.py`): the Endpoint Resolver (`_tasker_url`),
the Command Executor (`_call_tasker`), the percent-encoding used for
caller-supplied path segments (`urllib.parse.quote`), the thin action
catalog, and the `wake_computer` subprocess helper.

HTTP and subprocess I/O are embedded as explicit outcome values
(`HttpOutcome`, `WakeOutcome`): each constructor corresponds to one way
the exchange can end, and the executor's classification of that outcome
into the structured result dictionary is a pure function translated
line-by-line from the source.
-/

namespace TaskerMCP

/-- The Remote Endpoint Descriptor: `PHONE_HOST` and `PHONE_PORT`,
read once from the environment at startup (`os.getenv`) and immutable
thereafter.  The request timeout does not influence any result value,
so it is not carried here. -/
structure Config where
  host : String
  port : Nat
deriving DecidableEq, Repr

/-- The default configuration from `server.py` lines 11-12:
host `"100.123.253.113"`, port `1821`. -/
def defaultConfig : Config := { host := "100.123.253.113", port := 1821 }

/-- `_tasker_url` (server.py line 19-21):
`f"http://{PHONE_HOST}:{PHONE_PORT}{path}"`.  Python renders the int
port in decimal, i.e. `Nat.repr`. -/
def _tasker_url (cfg : Config) (path : String) : String :=
  "http://" ++ cfg.host ++ ":" ++ Nat.repr cfg.port ++ path

/-- The spec's formula for the resolver, written from its words:
`scheme://host:port<path>` with scheme `http`. -/
def spec_url (cfg : Config) (path : String) : String :=
  "http://" ++ cfg.host ++ ":" ++ Nat.repr cfg.port ++ path

/-- The Execution Result dictionary returned by `_call_tasker`.
`none` in an `Option` field models the key being absent from the
Python dict. -/
structure ExecutionResult where
  success : Bool
  status_code : Option Nat := none
  response : Option String := none
  error : Option String := none
deriving DecidableEq, Repr

/-- The possible outcomes of the single `client.get(url)` call inside
`_call_tasker`, matching the `try`/`except` arms of server.py lines
28-40: a completed exchange with a status code and body text, an
`httpx.TimeoutException`, an `httpx.ConnectError`, or any other
`Exception e` with text `str(e)`. -/
inductive HttpOutcome where
  | completed (status_code : Nat) (text : String)
  | timeout
  | connectError
  | otherError (msg : String)
deriving DecidableEq, Repr

/-- `o.isFault` holds on the three exceptional outcomes. -/
def HttpOutcome.isFault : HttpOutcome → Bool
  | .completed _ _ => false
  | _ => true

/-- `_call_tasker` (server.py lines 24-40), as the classification of an
`HttpOutcome` into an `ExecutionResult`.  On a completed exchange
Python evaluates `response.text or "OK"`: the empty string is falsy, so
an empty body yields the literal `"OK"`. -/
def _call_tasker (cfg : Config) (path : String) (outcome : HttpOutcome) :
    ExecutionResult :=
  match outcome with
  | .completed sc text =>
      { success := sc == 200
        status_code := some sc
        response := some (if text = "" then "OK" else text) }
  | .timeout =>
      { success := false, error := some "Request timed out" }
  | .connectError =>
      { success := false
        error := some ("Cannot connect to phone at " ++ cfg.host ++ ":"
          ++ Nat.repr cfg.port) }
  | .otherError msg =>
      { success := false, error := some msg }

/-- `path` is irrelevant to the classification; it only selects the URL
of the single GET.  Recorded here so later theorems may fix it. -/
theorem call_tasker_path_irrelevant (cfg : Config) (p q : String)
    (o : HttpOutcome) : _call_tasker cfg p o = _call_tasker cfg q o := by
  cases o <;> rfl

/-- `needle` occurs as a contiguous substring of `hay`. -/
def strContains (needle hay : String) : Prop :=
  needle.data <:+: hay.data

instance (a b : String) : Decidable (strContains a b) :=
  inferInstanceAs (Decidable (a.data <:+: b.data))

/-! ### `urllib.parse.quote`

`launch_app` encodes its argument with `urllib.parse.quote(app_name)`.
CPython's `quote` maps each byte of the string's UTF-8 encoding to
itself when it is in `ALWAYS_SAFE` (ASCII letters, digits, `_.-~`) or in
the `safe` parameter — whose *default is `"/"`* — and otherwise to `%XX`
with uppercase hex digits. -/

/-- ASCII letters, digits and `_`, `.`, `-`, `~`: the bytes
`urllib.parse.quote` never encodes (its `ALWAYS_SAFE` set). -/
def isAlwaysSafe (c : Char) : Bool :=
  (65 ≤ c.toNat && c.toNat ≤ 90) || (97 ≤ c.toNat && c.toNat ≤ 122) ||
  (48 ≤ c.toNat && c.toNat ≤ 57) || c.toNat == 95 || c.toNat == 46 ||
  c.toNat == 45 || c.toNat == 126

/-- Uppercase hex digit for `n < 16`, as in `'%{:02X}'.format(b)`. -/
def hexChar (n : Nat) : Char :=
  if n < 10 then Char.ofNat (48 + n) else Char.ofNat (55 + n)

/-- `%XX` escape of one byte. -/
def percentByte (b : Nat) : List Char :=
  ['%', hexChar (b / 16 % 16), hexChar (b % 16)]

/-- UTF-8 bytes of the code point `n` (as `str.encode('utf-8')` yields
per character before `quote` escapes the non-safe bytes). -/
def utf8Bytes (n : Nat) : List Nat :=
  if n < 128 then [n]
  else if n < 2048 then [192 + n / 64, 128 + n % 64]
  else if n < 65536 then [224 + n / 4096, 128 + n / 64 % 64, 128 + n % 64]
  else [240 + n / 262144, 128 + n / 4096 % 64, 128 + n / 64 % 64,
    128 + n % 64]

/-- Encoding of one character under `quote` with safe set `safe`. -/
def quoteChar (safe : List Char) (c : Char) : List Char :=
  if isAlwaysSafe c || safe.contains c then [c]
  else ((utf8Bytes c.toNat).map percentByte).flatten

/-- Character-by-character concatenation of `quoteChar`. -/
def quoteList (safe : List Char) : List Char → List Char
  | [] => []
  | c :: cs => quoteChar safe c ++ quoteList safe cs

/-- `urllib.parse.quote(s)` with its default safe set `"/"`. -/
def quote (s : String) : String :=
  String.mk (quoteList ['/'] s.data)

/-- The path `launch_app` builds (server.py lines 56-64):
`f"/app/launch/{encoded_name}"` with
`encoded_name = urllib.parse.quote(app_name)`. -/
def launch_app_path (app_name : String) : String :=
  "/app/launch/" ++ quote app_name

/-! ### Action catalog

Each tool in server.py is a one-line delegation to `_call_tasker` with a
fixed path (plus the encoded parameter for `launch_app`).  The HTTP
outcome is passed through explicitly, as for the executor itself. -/

/-- `torch_on` (server.py line 44): delegates with path `/torch/on`. -/
def torch_on (cfg : Config) (o : HttpOutcome) : ExecutionResult :=
  _call_tasker cfg "/torch/on" o

/-- `torch_off` (server.py line 50): path `/torch/off`. -/
def torch_off (cfg : Config) (o : HttpOutcome) : ExecutionResult :=
  _call_tasker cfg "/torch/off" o

/-- `launch_app` (server.py line 56): path
`/app/launch/{urllib.parse.quote(app_name)}`. -/
def launch_app (cfg : Config) (o : HttpOutcome) (app_name : String) :
    ExecutionResult :=
  _call_tasker cfg (launch_app_path app_name) o

/-- `volume_up` (server.py line 68): path `/volume/up`. -/
def volume_up (cfg : Config) (o : HttpOutcome) : ExecutionResult :=
  _call_tasker cfg "/volume/up" o

/-- `volume_down` (server.py line 74): path `/volume/down`. -/
def volume_down (cfg : Config) (o : HttpOutcome) : ExecutionResult :=
  _call_tasker cfg "/volume/down" o

/-- `media_play_pause` (server.py line 80): path `/media/playpause`. -/
def media_play_pause (cfg : Config) (o : HttpOutcome) : ExecutionResult :=
  _call_tasker cfg "/media/playpause" o

/-- `media_next` (server.py line 86): path `/media/next`. -/
def media_next (cfg : Config) (o : HttpOutcome) : ExecutionResult :=
  _call_tasker cfg "/media/next" o

/-- `media_previous` (server.py line 92): path `/media/previous`. -/
def media_previous (cfg : Config) (o : HttpOutcome) : ExecutionResult :=
  _call_tasker cfg "/media/previous" o

/-- Modelled from the spec: clamping, "forcing a numeric parameter into
its declared valid range before use, silently" (glossary), i.e.
`max lo (min hi x)`. -/
def clampInt (lo hi x : Int) : Int :=
  max lo (min hi x)

/-- Modelled from the spec: the absolute volume setter, absent from
src/.  Clamps the level to the audio-stream range [0,15] and embeds the
post-clamp value in the path. -/
def set_volume_path (level : Int) : String :=
  "/volume/set/" ++ toString (clampInt 0 15 level)

/-- Modelled from the spec: the absolute brightness setter, absent from
src/.  Clamps to [0,255]. -/
def set_brightness_path (level : Int) : String :=
  "/brightness/set/" ++ toString (clampInt 0 255 level)

/-- Modelled from the spec: the vibration setter, absent from src/.
Clamps the duration to [100,5000] ms. -/
def vibrate_path (ms : Int) : String :=
  "/vibrate/" ++ toString (clampInt 100 5000 ms)

/-- Modelled from the spec: absolute volume setter action. -/
def set_volume (cfg : Config) (o : HttpOutcome) (level : Int) :
    ExecutionResult :=
  _call_tasker cfg (set_volume_path level) o

/-- Modelled from the spec: absolute brightness setter action. -/
def set_brightness (cfg : Config) (o : HttpOutcome) (level : Int) :
    ExecutionResult :=
  _call_tasker cfg (set_brightness_path level) o

/-- Modelled from the spec: vibration action. -/
def vibrate (cfg : Config) (o : HttpOutcome) (ms : Int) :
    ExecutionResult :=
  _call_tasker cfg (vibrate_path ms) o

/-- Modelled from the spec: free-text notification send, absent from
src/; title and body are percent-encoded path segments. -/
def send_notification (cfg : Config) (o : HttpOutcome)
    (title body : String) : ExecutionResult :=
  _call_tasker cfg ("/notify/" ++ quote title ++ "/" ++ quote body) o

/-- Modelled from the spec: text-to-speech, absent from src/; the
spoken text is a percent-encoded path segment. -/
def speak (cfg : Config) (o : HttpOutcome) (text : String) :
    ExecutionResult :=
  _call_tasker cfg ("/say/" ++ quote text) o

/-- Modelled from the spec: battery status query, absent from src/. -/
def battery_status (cfg : Config) (o : HttpOutcome) : ExecutionResult :=
  _call_tasker cfg "/battery" o

/-- Modelled from the spec: photo capture trigger, absent from src/. -/
def take_photo (cfg : Config) (o : HttpOutcome) : ExecutionResult :=
  _call_tasker cfg "/photo" o

/-- Modelled from the spec: liveness ping, absent from src/. -/
def ping (cfg : Config) (o : HttpOutcome) : ExecutionResult :=
  _call_tasker cfg "/ping" o

/-! ### `wake_computer` -/

/-- The completed state of the `wakeonlan` subprocess: return code and
the decoded standard output and standard error. -/
structure SubprocResult where
  returncode : Int
  stdout : String
  stderr : String
deriving DecidableEq, Repr

/-- How the `wake_computer` body can end: the subprocess completed (the
`try` body reached the `return`), or `create_subprocess_exec` /
`communicate` raised `Exception e` with text `str(e)`. -/
inductive WakeOutcome where
  | completed (p : SubprocResult)
  | launchFailure (msg : String)
deriving DecidableEq, Repr

/-- The dictionary `wake_computer` returns.  A `response`/`error` value
of `none` models the key being absent; `error = some none` models the
key present with Python `None`. -/
structure WakeResult where
  success : Bool
  response : Option String := none
  error : Option (Option String) := none
deriving DecidableEq, Repr

/-- Python `str.strip()`: remove leading and trailing whitespace. -/
def pyStrip (s : String) : String :=
  String.mk
    (((s.data.dropWhile Char.isWhitespace).reverse.dropWhile
      Char.isWhitespace).reverse)

/-- `wake_computer` (server.py lines 167-188).  On completion:
`success = (returncode == 0)`,
`response = stdout.decode().strip() or "Wake signal sent"` (the empty
string is falsy), and
`error = stderr.decode().strip() if returncode != 0 else None`.
On an exception: `{"success": False, "error": str(e)}`, no `response`
key. -/
def wake_computer (o : WakeOutcome) : WakeResult :=
  match o with
  | .completed p =>
      { success := p.returncode == 0
        response := some (if pyStrip p.stdout = "" then "Wake signal sent"
          else pyStrip p.stdout)
        error := some (if p.returncode != 0 then some (pyStrip p.stderr)
          else none) }
  | .launchFailure msg =>
      { success := false, error := some (some msg) }

/-! ### Helper lemmas about the encoding -/

/-- The data of `quote s` is the character-level encoding of `s.data`. -/
theorem quote_data (s : String) :
    (quote s).data = quoteList ['/'] s.data := rfl

/-- Each character's encoding occurs contiguously in the encoding of
any list containing it. -/
theorem quoteChar_infix_quoteList (safe : List Char) (c : Char)
    (l : List Char) (h : c ∈ l) :
    quoteChar safe c <:+: quoteList safe l := by
  induction l with
  | nil => cases h
  | cons a t ih =>
    rcases List.mem_cons.mp h with rfl | h'
    · exact ⟨[], quoteList safe t, by simp [quoteList]⟩
    · obtain ⟨u, v, huv⟩ := ih h'
      exact ⟨quoteChar safe a ++ u, v,
        by simp [quoteList, ← huv, List.append_assoc]⟩

theorem hexChar_ne_slash (n : Nat) (h : n < 16) : hexChar n ≠ '/' := by
  interval_cases n <;> decide

theorem slash_not_mem_percentByte (b : Nat) : '/' ∉ percentByte b := by
  have h1 := hexChar_ne_slash (b / 16 % 16) (Nat.mod_lt _ (by norm_num))
  have h2 := hexChar_ne_slash (b % 16) (Nat.mod_lt _ (by norm_num))
  intro hm
  simp only [percentByte, List.mem_cons, List.not_mem_nil, or_false] at hm
  rcases hm with h | h | h
  · exact absurd h (by decide)
  · exact h1 h.symm
  · exact h2 h.symm

theorem count_slash_pcList (bs : List Nat) :
    ((bs.map percentByte).flatten).count '/' = 0 := by
  induction bs with
  | nil => rfl
  | cons b t ih =>
    simp [List.count_append, ih,
      List.count_eq_zero.mpr (slash_not_mem_percentByte b)]

theorem count_slash_quoteChar (c : Char) :
    (quoteChar ['/'] c).count '/' = if c = '/' then 1 else 0 := by
  by_cases hc : c = '/'
  · subst hc; decide
  · rw [if_neg hc, quoteChar]
    by_cases hs : (isAlwaysSafe c || List.contains ['/'] c) = true
    · rw [if_pos hs]
      refine List.count_eq_zero.mpr ?_
      simp only [List.mem_singleton]
      exact fun h => hc h.symm
    · rw [if_neg hs]
      exact count_slash_pcList _

theorem count_slash_quoteList (l : List Char) :
    (quoteList ['/'] l).count '/' = l.count '/' := by
  induction l with
  | nil => rfl
  | cons a t ih =>
    rw [quoteList, List.count_append, count_slash_quoteChar, ih,
      List.count_cons]
    by_cases h : a = '/'
    · simp [h]
      omega
    · simp [h, Ne.symm h]

/-- The encoding of any character of `app_name` occurs contiguously in
the path `launch_app` builds. -/
theorem quoteChar_infix_launch (c : Char) (s : String) (h : c ∈ s.data) :
    quoteChar ['/'] c <:+: (launch_app_path s).data := by
  obtain ⟨u, v, huv⟩ := quoteChar_infix_quoteList ['/'] c s.data h
  refine ⟨("/app/launch/").data ++ u, v, ?_⟩
  have hd : (launch_app_path s).data =
      ("/app/launch/").data ++ quoteList ['/'] s.data := by
    rw [launch_app_path, String.data_append, quote_data]
  rw [hd, ← huv]
  simp [List.append_assoc]

/-- Slash count of the `launch_app` path: the fixed prefix contributes
three, and the parameter contributes exactly its own slashes (since
`quote`'s default safe set passes `/` through unencoded). -/
theorem count_slash_launch (s : String) :
    (launch_app_path s).data.count '/' = 3 + s.data.count '/' := by
  rw [launch_app_path, String.data_append, List.count_append, quote_data,
    count_slash_quoteList,
    show ("/app/launch/").data.count '/' = 3 from by decide]

/-! ### Claim theorems -/

/-- C1: every invocation of `_call_tasker` populates exactly one of
{a completed exchange with `status_code` and `response`} or {`error`},
and `success` is true iff `status_code` equals 200. -/
theorem C1_result_shape_invariant (cfg : Config) (path : String)
    (o : HttpOutcome) :
    (((_call_tasker cfg path o).status_code.isSome = true
        ∧ (_call_tasker cfg path o).response.isSome = true
        ∧ (_call_tasker cfg path o).error = none)
      ∨ ((_call_tasker cfg path o).error.isSome = true
        ∧ (_call_tasker cfg path o).status_code = none
        ∧ (_call_tasker cfg path o).response = none))
    ∧ ((_call_tasker cfg path o).success = true
        ↔ (_call_tasker cfg path o).status_code = some 200) := by
  cases o with
  | completed sc text =>
    exact ⟨Or.inl ⟨rfl, rfl, rfl⟩, by simp [_call_tasker]⟩
  | timeout => exact ⟨Or.inr ⟨rfl, rfl, rfl⟩, by simp [_call_tasker]⟩
  | connectError => exact ⟨Or.inr ⟨rfl, rfl, rfl⟩, by simp [_call_tasker]⟩
  | otherError m => exact ⟨Or.inr ⟨rfl, rfl, rfl⟩, by simp [_call_tasker]⟩

/-- C2: on a completed exchange the `response` field is the body text
verbatim when non-empty and the literal `"OK"` when empty, and
`status_code` is always included; in particular 200 with empty body
gives `success = true`, `response = "OK"`, and 404 gives
`success = false`, `status_code = 404`, `response` = body text. -/
theorem C2_completed_exchange (cfg : Config) (path : String) (sc : Nat)
    (text t2 : String) (h : text ≠ "") :
    (_call_tasker cfg path (.completed sc text)).response = some text
    ∧ (_call_tasker cfg path (.completed sc "")).response = some "OK"
    ∧ (_call_tasker cfg path (.completed sc t2)).status_code = some sc
    ∧ (_call_tasker cfg path (.completed 200 "")).success = true
    ∧ (_call_tasker cfg path (.completed 200 "")).response = some "OK"
    ∧ (_call_tasker cfg path (.completed 404 text)).success = false
    ∧ (_call_tasker cfg path (.completed 404 text)).status_code = some 404
    ∧ (_call_tasker cfg path (.completed 404 text)).response = some text
    := by
  simp [_call_tasker, h]

theorem C2_completed_exchange_witness :
    (_call_tasker defaultConfig "/torch/on" (.completed 7 "body")).response
      = some "body"
    ∧ (_call_tasker defaultConfig "/torch/on" (.completed 7 "")).response
      = some "OK"
    ∧ (_call_tasker defaultConfig "/torch/on"
        (.completed 7 "x")).status_code = some 7
    ∧ (_call_tasker defaultConfig "/torch/on" (.completed 200 "")).success
      = true
    ∧ (_call_tasker defaultConfig "/torch/on" (.completed 200 "")).response
      = some "OK"
    ∧ (_call_tasker defaultConfig "/torch/on" (.completed 404 "body")).success
      = false
    ∧ (_call_tasker defaultConfig "/torch/on"
        (.completed 404 "body")).status_code = some 404
    ∧ (_call_tasker defaultConfig "/torch/on" (.completed 404 "body")).response
      = some "body" :=
  C2_completed_exchange defaultConfig "/torch/on" 7 "body" "x" (by decide)

/-- C3 counterexample: the claim fails at `app_name = "a/b"`, which
contains the reserved character `/`.  `urllib.parse.quote`'s default
safe set leaves `/` unencoded, so the built path contains no `%2F` and
has four slashes — an additional path segment beyond the fixed prefix
plus one parameter segment. -/
theorem C3_counterexample :
    launch_app_path "a/b" = "/app/launch/a/b"
    ∧ ¬ strContains "%2F" (launch_app_path "a/b")
    ∧ (launch_app_path "a/b").data.count '/' = 4 := by
  refine ⟨by decide, by decide, by decide⟩

/-- C3 amended: for a parameter containing one of the reserved
characters space, `?`, `&`, `#` (but not `/`), the path contains that
character's percent-encoded form; `/` is left unencoded by `quote`'s
default safe set, so the path's slash count is exactly 3 (the fixed
prefix) plus the number of slashes in the raw parameter. -/
theorem C3_amended_encoding (s : String) (c : Char) (enc : String)
    (hmem : (c, enc) ∈ [(Char.ofNat 32, "%20"), ('?', "%3F"),
      ('&', "%26"), ('#', "%23")])
    (hc : c ∈ s.data) :
    strContains enc (launch_app_path s)
    ∧ (launch_app_path s).data.count '/' = 3 + s.data.count '/' := by
  refine ⟨?_, count_slash_launch s⟩
  have hinf := quoteChar_infix_launch c s hc
  have henc : enc.data = quoteChar ['/'] c := by
    fin_cases hmem <;> decide
  show enc.data <:+: (launch_app_path s).data
  rw [henc]
  exact hinf

theorem C3_amended_encoding_witness :
    strContains "%20" (launch_app_path "a b")
    ∧ (launch_app_path "a b").data.count '/'
      = 3 + ("a b").data.count '/' :=
  C3_amended_encoding "a b" (Char.ofNat 32) "%20" (by decide) (by decide)

/-- C4: every fault outcome of the HTTP exchange is converted into the
uniform Execution Result (error populated, `success = false`, no
`status_code`, no `response`); the embedded executor is total over all
modeled outcomes, so no exception crosses the boundary. -/
theorem C4_faults_never_escape (cfg : Config) (path : String)
    (o : HttpOutcome) (h : o.isFault = true) :
    (_call_tasker cfg path o).error.isSome = true
    ∧ (_call_tasker cfg path o).success = false
    ∧ (_call_tasker cfg path o).status_code = none
    ∧ (_call_tasker cfg path o).response = none := by
  cases o with
  | completed sc text => exact absurd h (by simp [HttpOutcome.isFault])
  | timeout => exact ⟨rfl, rfl, rfl, rfl⟩
  | connectError => exact ⟨rfl, rfl, rfl, rfl⟩
  | otherError m => exact ⟨rfl, rfl, rfl, rfl⟩

theorem C4_faults_never_escape_witness :
    (_call_tasker defaultConfig "/ping" .timeout).error.isSome = true
    ∧ (_call_tasker defaultConfig "/ping" .timeout).success = false
    ∧ (_call_tasker defaultConfig "/ping" .timeout).status_code = none
    ∧ (_call_tasker defaultConfig "/ping" .timeout).response = none :=
  C4_faults_never_escape defaultConfig "/ping" .timeout (by decide)

/-- C5: on timeout the result is exactly `success = false` with the
fixed message `"Request timed out"` and no `status_code` (and no
`response`). -/
theorem C5_timeout_result (cfg : Config) (path : String) :
    _call_tasker cfg path .timeout =
      { success := false, error := some "Request timed out" } := rfl

/-- C6: on a connection failure the result has `success = false`, no
`status_code`, and an error string containing both the configured host
and the configured port. -/
theorem C6_connect_error (cfg : Config) (path : String) :
    ∃ e, (_call_tasker cfg path .connectError).error = some e
      ∧ strContains cfg.host e
      ∧ strContains (Nat.repr cfg.port) e
      ∧ (_call_tasker cfg path .connectError).success = false
      ∧ (_call_tasker cfg path .connectError).status_code = none := by
  refine ⟨_, rfl, ?_, ?_, rfl, rfl⟩
  · show cfg.host.data <:+: ("Cannot connect to phone at " ++ cfg.host
      ++ ":" ++ Nat.repr cfg.port).data
    refine ⟨("Cannot connect to phone at ").data,
      (":" ++ Nat.repr cfg.port).data, ?_⟩
    simp [String.data_append, List.append_assoc]
  · show (Nat.repr cfg.port).data <:+: ("Cannot connect to phone at "
      ++ cfg.host ++ ":" ++ Nat.repr cfg.port).data
    refine ⟨("Cannot connect to phone at " ++ cfg.host ++ ":").data,
      [], ?_⟩
    simp [String.data_append, List.append_assoc]

/-- C7 (spec-modelled: the absolute volume/brightness/vibration setters
are absent from src/): raw input -5 clamps to 0 and 999 clamps to the
stream maximum (15 for volume, 255 for brightness); every numeric
parameter is clamped into its declared domain before being embedded in
the path, and the path built for the named out-of-range inputs never
contains the raw input. -/
theorem C7_setters_clamp (v b d : Int) :
    set_volume_path (-5) = "/volume/set/0"
    ∧ set_volume_path 999 = "/volume/set/15"
    ∧ set_brightness_path 999 = "/brightness/set/255"
    ∧ set_brightness_path (-5) = "/brightness/set/0"
    ∧ vibrate_path 7 = "/vibrate/100"
    ∧ vibrate_path 99999 = "/vibrate/5000"
    ∧ (0 ≤ clampInt 0 15 v ∧ clampInt 0 15 v ≤ 15)
    ∧ (0 ≤ clampInt 0 255 b ∧ clampInt 0 255 b ≤ 255)
    ∧ (100 ≤ clampInt 100 5000 d ∧ clampInt 100 5000 d ≤ 5000)
    ∧ ¬ strContains "-5" (set_volume_path (-5))
    ∧ ¬ strContains "999" (set_volume_path 999)
    ∧ ¬ strContains "999" (set_brightness_path 999) := by
  refine ⟨by decide, by decide, by decide, by decide, by decide,
    by decide, ?_, ?_, ?_, by decide, by decide, by decide⟩
  · exact ⟨le_max_left _ _, max_le (by norm_num) (min_le_left _ _)⟩
  · exact ⟨le_max_left _ _, max_le (by norm_num) (min_le_left _ _)⟩
  · exact ⟨le_max_left _ _, max_le (by norm_num) (min_le_left _ _)⟩

/-- C8 (partly spec-modelled: the setters, notification, speech,
battery, photo and ping actions are absent from src/): every action of
the catalog is a thin call site delegating to `_call_tasker` with its
fixed path (plus encoded parameters), performing no I/O or error
handling of its own. -/
theorem C8_catalog_delegates (cfg : Config) (o : HttpOutcome)
    (app_name title body text : String) (level ms : Int) :
    torch_on cfg o = _call_tasker cfg "/torch/on" o
    ∧ torch_off cfg o = _call_tasker cfg "/torch/off" o
    ∧ launch_app cfg o app_name
      = _call_tasker cfg ("/app/launch/" ++ quote app_name) o
    ∧ media_play_pause cfg o = _call_tasker cfg "/media/playpause" o
    ∧ media_next cfg o = _call_tasker cfg "/media/next" o
    ∧ media_previous cfg o = _call_tasker cfg "/media/previous" o
    ∧ volume_up cfg o = _call_tasker cfg "/volume/up" o
    ∧ volume_down cfg o = _call_tasker cfg "/volume/down" o
    ∧ set_volume cfg o level = _call_tasker cfg (set_volume_path level) o
    ∧ set_brightness cfg o level
      = _call_tasker cfg (set_brightness_path level) o
    ∧ vibrate cfg o ms = _call_tasker cfg (vibrate_path ms) o
    ∧ send_notification cfg o title body
      = _call_tasker cfg ("/notify/" ++ quote title ++ "/" ++ quote body) o
    ∧ speak cfg o text = _call_tasker cfg ("/say/" ++ quote text) o
    ∧ battery_status cfg o = _call_tasker cfg "/battery" o
    ∧ take_photo cfg o = _call_tasker cfg "/photo" o
    ∧ ping cfg o = _call_tasker cfg "/ping" o :=
  ⟨rfl, rfl, rfl, rfl, rfl, rfl, rfl, rfl, rfl, rfl, rfl, rfl, rfl, rfl,
    rfl, rfl⟩

/-- C9: the Endpoint Resolver returns exactly
`"http://" ++ host ++ ":" ++ port ++ path` from the immutable
configuration, as a total pure function (it agrees with the spec's
formula on every input). -/
theorem C9_resolver_exact (cfg : Config) (path : String) :
    _tasker_url cfg path = spec_url cfg path
    ∧ _tasker_url cfg path
      = "http://" ++ cfg.host ++ ":" ++ Nat.repr cfg.port ++ path :=
  ⟨rfl, rfl⟩

/-- C10: when `wake_computer`'s subprocess completes, the returned
dictionary always has both a `response` and an `error` key; `success`
is true iff the return code is 0; `error` is Python `None` exactly when
the return code is 0; `response` falls back to `"Wake signal sent"`
when standard output is empty; and there is a completed outcome where
both `response` and a non-`None` `error` are populated, so the core's
exactly-one-of result shape does not extend to this tool. -/
theorem C10_wake_computer_shape (p : SubprocResult) :
    (wake_computer (.completed p)).response.isSome = true
    ∧ (wake_computer (.completed p)).error.isSome = true
    ∧ ((wake_computer (.completed p)).success = true ↔ p.returncode = 0)
    ∧ ((wake_computer (.completed p)).error = some none
        ↔ p.returncode = 0)
    ∧ (p.stdout = ""
        → (wake_computer (.completed p)).response = some "Wake signal sent")
    ∧ (∃ q : SubprocResult,
        (wake_computer (.completed q)).response.isSome = true
        ∧ (wake_computer (.completed q)).error.isSome = true
        ∧ (wake_computer (.completed q)).error ≠ some none) := by
  refine ⟨rfl, rfl, ?_, ?_, ?_, ⟨⟨1, "", "e"⟩, by decide, by decide,
    by decide⟩⟩
  · simp [wake_computer]
  · by_cases h : p.returncode = 0 <;> simp [wake_computer, h]
  · intro h
    simp [wake_computer, h, pyStrip]

theorem C10_wake_computer_shape_witness :
    (wake_computer (.completed ⟨0, "", ""⟩)).response.isSome = true
    ∧ (wake_computer (.completed ⟨0, "", ""⟩)).error.isSome = true
    ∧ ((wake_computer (.completed ⟨0, "", ""⟩)).success = true
        ↔ (0 : Int) = 0)
    ∧ ((wake_computer (.completed ⟨0, "", ""⟩)).error = some none
        ↔ (0 : Int) = 0)
    ∧ (("" : String) = ""
        → (wake_computer (.completed ⟨0, "", ""⟩)).response
          = some "Wake signal sent")
    ∧ (∃ q : SubprocResult,
        (wake_computer (.completed q)).response.isSome = true
        ∧ (wake_computer (.completed q)).error.isSome = true
        ∧ (wake_computer (.completed q)).error ≠ some none) :=
  C10_wake_computer_shape ⟨0, "", ""⟩

end TaskerMCP
